import Mathlib

/-!
Verification development for the nano-banana-proxy repository.

The repository is a single-endpoint HTTP relay.  It contains two relevant
source variants of the same ~150-line relay:

* `src/index.js` (first variant, the one all claim line references point
  into): POST /retouch reads `imageBase64`, `backgroundId`,
  `resolutionHint`, `promptOverride`, `prompt` from the body, resolves the
  prompt as promptOverride → prompt → DEFAULT_PROMPT, normalizes the
  resolution with a first-character fallback, and sends
  `{prompt, num_images, aspect_ratio, output_format, image_urls, resolution}`
  upstream.  The image URL is extracted from the parsed upstream JSON as
  `(Array.isArray(j.images) && j.images[0]?.url) || j.image_url ||
  j.imageUrl || j.output?.[0]?.url`.

* `src/unnamed/part_000`: POST /retouch reads `imageBase64`,
  `backgroundId`, `resolutionHint`, picks the prompt from a fixed
  `promptMap` keyed by `backgroundId` (falling back to the `studioSoft`
  entry), normalizes the resolution by exact match only, and sends
  `{input: {image_url, prompt}, resolution}` upstream.  The image URL is
  extracted as `j.image_url || j.url || (j.output &&
  Array.isArray(j.output) && j.output[0] && j.output[0].url)`.

The embedding models JavaScript values flowing through the handlers as a
`Json` inductive (with `Option Json` for possibly-`undefined` values),
models JS truthiness, property access, `String(·)` coercion, `trim`,
`toUpperCase`, and `JSON.parse` (as an executable fuel-based parser), and
models each handler as a pure function split at the single outbound
`fetch`: phase 1 runs from request receipt up to (but not including) the
outbound call and either returns an HTTP response directly (no outbound
call occurs) or the upstream request body; phase 2 maps the upstream
status and raw body text to the final HTTP response.
-/

/-- A JSON value, as produced by `JSON.parse` and consumed by the
handlers.  JS `undefined` is modelled as `none : Option Json` at use
sites.  JSON numbers are modelled as integers; no claim involves
fractional numeric values. -/
inductive Json where
  | null
  | bool (b : Bool)
  | num (n : Int)
  | str (s : String)
  | arr (elems : List Json)
  | obj (fields : List (String × Json))

/-- Lookup of a property in a JS object literal (first match; the object
literals in this repository have no duplicate keys). -/
def lookupFields : List (String × Json) → String → Option Json
  | [], _ => none
  | (k, v) :: rest, key => if k = key then some v else lookupFields rest key

/-- JS property access `j.key`.  On objects it is the field lookup; on
every other value except `null`/`undefined` it yields `undefined`
(`none`).  Access on `null` throws in JS; the call sites in the source
either guard it with `?.` or are wrapped by the handler try/catch, and
the one reachable throwing case is modelled explicitly in phase 2. -/
def Json.getField : Json → String → Option Json
  | Json.obj fs, key => lookupFields fs key
  | _, _ => none

/-- JS indexing `j[i]` for a numeric literal index: array element,
object property named by the decimal numeral, or single-character
string. -/
def Json.idx : Json → Nat → Option Json
  | Json.arr xs, i => xs.get? i
  | Json.obj fs, i => lookupFields fs (toString i)
  | Json.str s, i => (s.data.get? i).map (fun c => Json.str (String.mk [c]))
  | _, _ => none

/-- JS truthiness of a defined value. -/
def Json.truthy : Json → Bool
  | Json.null => false
  | Json.bool b => b
  | Json.num n => if n = 0 then false else true
  | Json.str s => if s = "" then false else true
  | Json.arr _ => true
  | Json.obj _ => true

/-- JS truthiness with `undefined` (`none`) falsy. -/
def truthyOpt : Option Json → Bool
  | none => false
  | some j => j.truthy

/-- JS `a || b`: the left operand when truthy, otherwise the right. -/
def jsOr (a b : Option Json) : Option Json :=
  if truthyOpt a then a else b

/-- Collapse a possibly-falsy value to `none` when falsy; used to compare
two expressions that agree on every truthy outcome. -/
def normTruthy (a : Option Json) : Option Json :=
  if truthyOpt a then a else none

/-- Truthiness of the configured API key value (`process.env` variables
are strings or `undefined`; the source tests them with `!`). -/
def strTruthy : Option String → Bool
  | none => false
  | some s => if s = "" then false else true

mutual
/-- JS `String(v)` coercion: `"null"` for null, `"true"`/`"false"`,
decimal numerals, strings unchanged, arrays joined by commas
(recursively, as `Array.prototype.toString`), `"[object Object]"` for
plain objects. -/
def Json.jsStr : Json → String
  | Json.null => "null"
  | Json.bool b => if b then "true" else "false"
  | Json.num n => toString n
  | Json.str s => s
  | Json.arr xs => Json.jsStrList xs
  | Json.obj _ => "[object Object]"

/-- Comma-joined stringification of array elements
(`Array.prototype.join` renders a `null` element as the empty
string). -/
def Json.jsStrList : List Json → String
  | [] => ""
  | [Json.null] => ""
  | [x] => Json.jsStr x
  | Json.null :: y :: rest => "," ++ Json.jsStrList (y :: rest)
  | x :: y :: rest => Json.jsStr x ++ "," ++ Json.jsStrList (y :: rest)
end

/-- Characters removed by JS `String.prototype.trim` (the common
WhiteSpace and LineTerminator code points). -/
def isWsChar (c : Char) : Bool :=
  (c.toNat == 9) || (c.toNat == 10) || (c.toNat == 11) || (c.toNat == 12) ||
  (c.toNat == 13) || (c.toNat == 32) || (c.toNat == 160) ||
  (c.toNat == 8232) || (c.toNat == 8233) || (c.toNat == 65279)

/-- ASCII uppercasing of one character, as JS `toUpperCase` acts on the
character sets exercised by this repository. -/
def upChar (c : Char) : Char :=
  if 97 ≤ c.toNat ∧ c.toNat ≤ 122 then Char.ofNat (c.toNat - 32) else c

/-- JS `s.toUpperCase()`. -/
def jsToUpper (s : String) : String := String.mk (s.data.map upChar)

/-- Trim on the character list: drop leading and trailing whitespace. -/
def jsTrimList (l : List Char) : List Char :=
  ((l.dropWhile isWsChar).reverse.dropWhile isWsChar).reverse

/-- JS `s.trim()`. -/
def jsTrim (s : String) : String := String.mk (jsTrimList s.data)

/-- Regex test `/^c/.test(s)`: the first character of `s` equals `c`. -/
def headIs (s : String) (c : Char) : Bool :=
  match s.data with
  | [] => false
  | a :: _ => a == c

/-- An HTTP response sent back to the caller: status code and JSON
body (`res.status(n).json(b)`; `res.json(b)` is status 200). -/
structure HttpResponse where
  status : Nat
  body : Json

/-- JSON-grammar whitespace accepted by `JSON.parse`. -/
def isJsonWs (c : Char) : Bool :=
  (c.toNat == 32) || (c.toNat == 9) || (c.toNat == 10) || (c.toNat == 13)

/-- Drop leading JSON whitespace. -/
def skipWs : List Char → List Char
  | [] => []
  | c :: cs => if isJsonWs c then skipWs cs else c :: cs

/-- The double-quote character. -/
def quoteC : Char := Char.ofNat 34

/-- The backslash character. -/
def bslashC : Char := Char.ofNat 92

/-- The opening-brace character. -/
def lbraceC : Char := Char.ofNat 123

/-- The closing-brace character. -/
def rbraceC : Char := Char.ofNat 125

/-- Parse-error message for truncated input. -/
def jsonErrEnd : String := "SyntaxError: Unexpected end of JSON input"

/-- Parse-error message for an unexpected token. -/
def jsonErrToken : String := "SyntaxError: Unexpected token in JSON"

/-- Parse-error message when the fuel bound is exhausted (a model
artifact; the fuel passed by `jsonParse` exceeds the recursion depth of
any input). -/
def jsonErrFuel : String := "SyntaxError: input too deeply nested"

/-- Parse the body of a JSON string literal after its opening quote,
accumulating characters until the closing quote, with the common
backslash escapes (`\u` escapes are not modelled; no claim involves
them). -/
def pStrBody : List Char → List Char → Except String (String × List Char)
  | [], _ => Except.error jsonErrEnd
  | c :: cs, acc =>
    if c == quoteC then Except.ok (String.mk acc.reverse, cs)
    else if c == bslashC then
      match cs with
      | [] => Except.error jsonErrEnd
      | e :: cs2 =>
        if e == quoteC then pStrBody cs2 (quoteC :: acc)
        else if e == bslashC then pStrBody cs2 (bslashC :: acc)
        else if e == '/' then pStrBody cs2 ('/' :: acc)
        else if e == 'n' then pStrBody cs2 (Char.ofNat 10 :: acc)
        else if e == 't' then pStrBody cs2 (Char.ofNat 9 :: acc)
        else if e == 'r' then pStrBody cs2 (Char.ofNat 13 :: acc)
        else if e == 'b' then pStrBody cs2 (Char.ofNat 8 :: acc)
        else if e == 'f' then pStrBody cs2 (Char.ofNat 12 :: acc)
        else Except.error jsonErrToken
    else pStrBody cs (c :: acc)

/-- ASCII decimal digit test. -/
def isDigitC (c : Char) : Bool := (48 ≤ c.toNat) && (c.toNat ≤ 57)

/-- Consume a run of decimal digits, returning the accumulated value and
the rest of the input (integer JSON numbers only; fractional and
exponent forms are not modelled, and no claim involves them). -/
def pDigits : List Char → Nat → Nat × List Char
  | [], acc => (acc, [])
  | c :: cs, acc => if isDigitC c then pDigits cs (acc * 10 + (c.toNat - 48)) else (acc, c :: cs)

/-- Match an expected literal character sequence, returning the rest of
the input on success. -/
def matchChars : List Char → List Char → Option (List Char)
  | [], cs => some cs
  | _ :: _, [] => none
  | p :: ps, c :: cs => if c == p then matchChars ps cs else none

/-- Parser task: a value, the remaining items of an array after its
opening bracket, or the remaining entries of an object after its opening
brace. -/
inductive PTask where
  | val
  | arrItems (acc : List Json)
  | objItems (acc : List (String × Json))

/-- One recursive-descent JSON parser step, structurally recursive on the
fuel so that concrete inputs evaluate by kernel reduction. -/
def pStep : Nat → PTask → List Char → Except String (Json × List Char)
  | 0, _, _ => Except.error jsonErrFuel
  | Nat.succ fuel, PTask.val, cs =>
    match skipWs cs with
    | [] => Except.error jsonErrEnd
    | c :: rest =>
      if c == lbraceC then
        match skipWs rest with
        | [] => Except.error jsonErrEnd
        | d :: rest2 =>
          if d == rbraceC then Except.ok (Json.obj [], rest2)
          else pStep fuel (PTask.objItems []) (d :: rest2)
      else if c == '[' then
        match skipWs rest with
        | [] => Except.error jsonErrEnd
        | d :: rest2 =>
          if d == ']' then Except.ok (Json.arr [], rest2)
          else pStep fuel (PTask.arrItems []) (d :: rest2)
      else if c == quoteC then
        match pStrBody rest [] with
        | Except.error e => Except.error e
        | Except.ok (s, rest2) => Except.ok (Json.str s, rest2)
      else if c == 't' then
        match matchChars ['r', 'u', 'e'] rest with
        | some rest2 => Except.ok (Json.bool true, rest2)
        | none => Except.error jsonErrToken
      else if c == 'f' then
        match matchChars ['a', 'l', 's', 'e'] rest with
        | some rest2 => Except.ok (Json.bool false, rest2)
        | none => Except.error jsonErrToken
      else if c == 'n' then
        match matchChars ['u', 'l', 'l'] rest with
        | some rest2 => Except.ok (Json.null, rest2)
        | none => Except.error jsonErrToken
      else if c == '-' then
        match rest with
        | d :: _ =>
          if isDigitC d then
            let r := pDigits rest 0
            Except.ok (Json.num (-(Int.ofNat r.1)), r.2)
          else Except.error jsonErrToken
        | [] => Except.error jsonErrEnd
      else if isDigitC c then
        let r := pDigits (c :: rest) 0
        Except.ok (Json.num (Int.ofNat r.1), r.2)
      else Except.error jsonErrToken
  | Nat.succ fuel, PTask.arrItems acc, cs =>
    match pStep fuel PTask.val cs with
    | Except.error e => Except.error e
    | Except.ok (v, rest) =>
      match skipWs rest with
      | [] => Except.error jsonErrEnd
      | d :: rest2 =>
        if d == ',' then pStep fuel (PTask.arrItems (acc ++ [v])) rest2
        else if d == ']' then Except.ok (Json.arr (acc ++ [v]), rest2)
        else Except.error jsonErrToken
  | Nat.succ fuel, PTask.objItems acc, cs =>
    match skipWs cs with
    | [] => Except.error jsonErrEnd
    | c :: rest =>
      if c == quoteC then
        match pStrBody rest [] with
        | Except.error e => Except.error e
        | Except.ok (key, rest2) =>
          match skipWs rest2 with
          | [] => Except.error jsonErrEnd
          | d :: rest3 =>
            if d == ':' then
              match pStep fuel PTask.val rest3 with
              | Except.error e => Except.error e
              | Except.ok (v, rest4) =>
                match skipWs rest4 with
                | [] => Except.error jsonErrEnd
                | e2 :: rest5 =>
                  if e2 == ',' then pStep fuel (PTask.objItems (acc ++ [(key, v)])) rest5
                  else if e2 == rbraceC then Except.ok (Json.obj (acc ++ [(key, v)]), rest5)
                  else Except.error jsonErrToken
            else Except.error jsonErrToken
      else Except.error jsonErrToken

/-- The model of `JSON.parse`: parse one value and require only whitespace after it.
The fuel bound exceeds the recursion depth reachable on any input of the
given length. -/
def jsonParse (s : String) : Except String Json :=
  match pStep (8 * s.length + 8) PTask.val s.data with
  | Except.error e => Except.error e
  | Except.ok (v, rest) =>
    match skipWs rest with
    | [] => Except.ok v
    | _ :: _ => Except.error jsonErrToken

/-- The value of `req.body` defaulted to an empty object when it
is `undefined` or otherwise falsy. -/
def reqBodyOrEmpty (reqBody : Option Json) : Json :=
  match reqBody with
  | some b => if b.truthy then b else Json.obj []
  | none => Json.obj []

/-- Lookup in a string-to-string literal object (the prompt table). -/
def lookupEntries : List (String × String) → String → Option String
  | [], _ => none
  | (k, v) :: rest, key => if k = key then some v else lookupEntries rest key

/-- Message standing for the exception thrown by a property access on a
parsed `null` upstream body (the message text is abstracted; no claim
depends on it). -/
def nullAccessMsg : String := "TypeError: Cannot read properties of null"

namespace IndexJs

/-- The hard-coded fallback prompt of `src/index.js`. -/
def DEFAULT_PROMPT : String :=
  "Retouch the image in ultra-high resolution without changing any person’s face, pose, or clothing. " ++
  "Brighten skin tones and overall colors slightly for a clean, luminous look. " ++
  "Replace the background and floor with a clean, seamless professional studio backdrop. " ++
  "Keep all subjects exactly as they appear in the original photo."

/-- The `normalizeResolution` function of `src/index.js`: falsy input maps to `1K`;
otherwise `String(value).trim().toUpperCase()` is returned when it is
exactly one of the three tiers, else matched on its first character,
else defaulted to `1K`. -/
def normalizeResolution (value : Option Json) : String :=
  if truthyOpt value = false then "1K"
  else
    let v := jsToUpper (jsTrim (Json.jsStr (value.getD Json.null)))
    if v = "1K" ∨ v = "2K" ∨ v = "4K" then v
    else if headIs v '1' then "1K"
    else if headIs v '2' then "2K"
    else if headIs v '4' then "4K"
    else "1K"

/-- The test `typeof x === "string" && x.trim().length > 0` together with
the trimmed value it selects. -/
def promptFromField (j : Option Json) : Option String :=
  match j with
  | some (Json.str s) => if 0 < (jsTrim s).length then some (jsTrim s) else none
  | _ => none

/-- The `finalPrompt` computation of `src/index.js`: a trimmed non-empty
string `promptOverride` wins, else a trimmed non-empty string `prompt`,
else `DEFAULT_PROMPT`. -/
def resolveFinalPrompt (promptOverride promptField : Option Json) : String :=
  match promptFromField promptOverride with
  | some p => p
  | none =>
    match promptFromField promptField with
    | some p => p
    | none => DEFAULT_PROMPT

/-- The upstream request body built by `src/index.js`.  Lean field names
are camelCase; `toJson` below carries the exact JSON keys sent
upstream. -/
structure Payload where
  prompt : String
  numImages : Nat
  aspectRatio : String
  outputFormat : String
  imageUrls : List Json
  resolution : String

/-- The `JSON.stringify` image of the payload object literal, with the exact
upstream keys in source order. -/
def Payload.toJson (pl : Payload) : Json :=
  Json.obj [("prompt", Json.str pl.prompt),
            ("num_images", Json.num (Int.ofNat pl.numImages)),
            ("aspect_ratio", Json.str pl.aspectRatio),
            ("output_format", Json.str pl.outputFormat),
            ("image_urls", Json.arr pl.imageUrls),
            ("resolution", Json.str pl.resolution)]

/-- The `/retouch` handler of `src/index.js` from request receipt up to
the outbound `fetch`: `Sum.inl` is an HTTP response returned before any
outbound call; `Sum.inr` is the upstream request body. -/
def retouchPhase1 (falApiKey : Option String) (reqBody : Option Json) :
    Sum HttpResponse Payload :=
  let body := reqBodyOrEmpty reqBody
  if strTruthy falApiKey = false then
    Sum.inl ⟨500, Json.obj [("error", Json.str "Server is not configured with FAL_API_KEY.")]⟩
  else if truthyOpt (Json.getField body "imageBase64") = false then
    Sum.inl ⟨400, Json.obj [("error", Json.str "imageBase64 is required.")]⟩
  else
    let resolution := normalizeResolution (Json.getField body "resolutionHint")
    let finalPrompt := resolveFinalPrompt (Json.getField body "promptOverride")
      (Json.getField body "prompt")
    Sum.inr { prompt := finalPrompt, numImages := 1, aspectRatio := "auto",
              outputFormat := "png",
              imageUrls := [(Json.getField body "imageBase64").getD Json.null],
              resolution := resolution }

/-- First operand of the extraction chain:
`Array.isArray(falJson.images) && falJson.images[0]?.url` (`&&` yields
`false` when `images` is not an array). -/
def imagesFirst (falJson : Json) : Option Json :=
  match Json.getField falJson "images" with
  | some (Json.arr elems) =>
    match elems with
    | [] => none
    | e :: _ =>
      match e with
      | Json.null => none
      | _ => Json.getField e "url"
  | _ => some (Json.bool false)

/-- The optional chain `falJson.key?.[0]?.url`. -/
def optIdx0Url (falJson : Json) (key : String) : Option Json :=
  match Json.getField falJson key with
  | none => none
  | some Json.null => none
  | some o =>
    match Json.idx o 0 with
    | none => none
    | some Json.null => none
    | some e => Json.getField e "url"

/-- The `imageUrl` extraction of `src/index.js`:
`(Array.isArray(falJson.images) && falJson.images[0]?.url) ||
falJson.image_url || falJson.imageUrl || falJson.output?.[0]?.url`. -/
def extractImageUrl (falJson : Json) : Option Json :=
  jsOr (jsOr (jsOr (imagesFirst falJson) (Json.getField falJson "image_url"))
      (Json.getField falJson "imageUrl"))
    (optIdx0Url falJson "output")

/-- The 500 response of `src/index.js` when no image URL is found. -/
def noImageUrlResp (falJson : Json) : HttpResponse :=
  ⟨500, Json.obj [("error", Json.str "Nano Banana Pro Edit did not return an image URL."),
                  ("details", falJson)]⟩

/-- The `/retouch` handler of `src/index.js` after the outbound call:
from the upstream status and raw body text to the response sent to the
caller.  A parsed `null` body throws on the first property access and is
caught by the handler try/catch (the `Json.null` branch).  A
`backgroundId` of `undefined` is omitted from the success body, as
`res.json` serialization drops `undefined` fields. -/
def retouchPhase2 (upStatus : Nat) (rawText : String) (pl : Payload)
    (backgroundId : Option Json) (startedAt finishedAt : String) : HttpResponse :=
  if upStatus < 200 ∨ 299 < upStatus then
    ⟨500, Json.obj [("error", Json.str "Nano Banana Pro Edit processing failed"),
                    ("upstreamStatus", Json.num (Int.ofNat upStatus)),
                    ("details", Json.str rawText)]⟩
  else
    match (if rawText = "" then Except.ok (Json.obj []) else jsonParse rawText) with
    | Except.error e =>
      ⟨500, Json.obj [("error", Json.str "Invalid JSON from Nano Banana Pro Edit"),
                      ("details", Json.str e), ("raw", Json.str rawText)]⟩
    | Except.ok falJson =>
      match falJson with
      | Json.null =>
        ⟨500, Json.obj [("error", Json.str "Unexpected server error"),
                        ("details", Json.str nullAccessMsg)]⟩
      | _ =>
        match extractImageUrl falJson with
        | some u =>
          if u.truthy then
            ⟨200, Json.obj ([("ok", Json.bool true), ("imageUrl", u),
                             ("usedPrompt", Json.str pl.prompt),
                             ("resolution", Json.str pl.resolution)] ++
              (match backgroundId with
               | some bg => [("backgroundId", bg)]
               | none => []) ++
              [("startedAt", Json.str startedAt), ("finishedAt", Json.str finishedAt)])⟩
          else noImageUrlResp falJson
        | none => noImageUrlResp falJson

/-- The whole `/retouch` handler of `src/index.js`, with the single
outbound call abstracted as a function from the upstream request body to
the upstream status and raw response text. -/
def handle (falApiKey : Option String) (reqBody : Option Json)
    (upstream : Payload → Nat × String) (startedAt finishedAt : String) : HttpResponse :=
  match retouchPhase1 falApiKey reqBody with
  | Sum.inl r => r
  | Sum.inr pl =>
    retouchPhase2 (upstream pl).1 (upstream pl).2 pl
      (Json.getField (reqBodyOrEmpty reqBody) "backgroundId") startedAt finishedAt

end IndexJs

namespace Part000

/-- The `studioSoft` entry of the prompt table in `src/unnamed/part_000`. -/
def studioSoftPrompt : String :=
  "Retouch the uploaded portrait into a soft, clean studio look with a light gradient backdrop. Do not change the person’s face, pose, expression, or clothing. Only adjust background, lighting, and overall mood."

/-- The `taekwondo` entry of the prompt table. -/
def taekwondoPrompt : String :=
  "Create a high-energy Taekwondo Photo Day background with dynamic lighting, motion streaks, and subtle sparks. Do not change the subject’s face, pose, or uniform. Only modify the background and lighting."

/-- The `holiday` entry of the prompt table. -/
def holidayPrompt : String :=
  "Transform the background into a warm holiday studio with subtle lights and seasonal mood. Keep the face, pose, and clothing as they are. Only adjust background, colors, and lighting."

/-- The `cleanMono` entry of the prompt table. -/
def cleanMonoPrompt : String :=
  "Use a simple, modern single-color studio wall background. Keep the person’s face, expression, and pose exactly the same, only cleaning up the background and lighting."

/-- The `promptMap` of `src/unnamed/part_000`. -/
def promptMap : List (String × String) :=
  [("studioSoft", studioSoftPrompt), ("taekwondo", taekwondoPrompt),
   ("holiday", holidayPrompt), ("cleanMono", cleanMonoPrompt)]

/-- The lookup `promptMap[backgroundId] || promptMap.studioSoft`: the property key
is the JS string coercion of `backgroundId` (`"undefined"` when the
field is absent).  Every table entry is a non-empty string, so the `||`
fallback fires exactly when the key is missing; the empty-entry branch
mirrors `||` on an (unreachable) falsy entry. -/
def resolvePrompt (backgroundId : Option Json) : String :=
  let key := match backgroundId with
    | none => "undefined"
    | some j => Json.jsStr j
  match lookupEntries promptMap key with
  | some p => if p = "" then studioSoftPrompt else p
  | none => studioSoftPrompt

/-- The `normalizeResolution` function of `src/unnamed/part_000`:
`(hint || "").toString().toUpperCase().trim()` is returned when it is
exactly one of the three tiers, and `1K` otherwise — there is no
first-character fallback in this variant. -/
def normalizeResolution (hint : Option Json) : String :=
  let base := if truthyOpt hint then Json.jsStr (hint.getD Json.null) else ""
  let upper := jsTrim (jsToUpper base)
  if upper = "1K" ∨ upper = "2K" ∨ upper = "4K" then upper else "1K"

/-- The nested `input` object of the upstream body built by
`src/unnamed/part_000`. -/
structure FalInput where
  imageUrl : Json
  prompt : String

/-- The upstream request body (`falBody`) of `src/unnamed/part_000`:
`{ input: { image_url, prompt }, resolution }` — and nothing else. -/
structure FalBody where
  input : FalInput
  resolution : String

/-- The `JSON.stringify` image of `falBody`, with the exact upstream keys in
source order. -/
def FalBody.toJson (fb : FalBody) : Json :=
  Json.obj [("input", Json.obj [("image_url", fb.input.imageUrl),
                                ("prompt", Json.str fb.input.prompt)]),
            ("resolution", Json.str fb.resolution)]

/-- The `/retouch` handler of `src/unnamed/part_000` up to the outbound
`fetch`: `Sum.inl` is a response returned before any outbound call,
`Sum.inr` the upstream request body.  As in the source, the credential
check precedes the body destructuring and the image check. -/
def retouchPhase1 (falKey : Option String) (reqBody : Option Json) :
    Sum HttpResponse FalBody :=
  if strTruthy falKey = false then
    Sum.inl ⟨500, Json.obj [("error", Json.str "Server configuration error"),
                            ("details", Json.str "FAL_KEY missing")]⟩
  else
    let body := reqBodyOrEmpty reqBody
    if truthyOpt (Json.getField body "imageBase64") = false then
      Sum.inl ⟨400, Json.obj [("error", Json.str "imageBase64 is required in request body")]⟩
    else
      let prompt := resolvePrompt (Json.getField body "backgroundId")
      let resolution := normalizeResolution (Json.getField body "resolutionHint")
      Sum.inr { input := { imageUrl := (Json.getField body "imageBase64").getD Json.null,
                           prompt := prompt },
                resolution := resolution }

/-- The third operand of the extraction chain of `src/unnamed/part_000`:
`falJson.output && Array.isArray(falJson.output) && falJson.output[0] &&
falJson.output[0].url`, with JS `&&` returning its first falsy
operand. -/
def outputChain (falJson : Json) : Option Json :=
  let o := Json.getField falJson "output"
  if truthyOpt o = false then o
  else
    match o with
    | some (Json.arr xs) =>
      let e0 := Json.idx (Json.arr xs) 0
      if truthyOpt e0 = false then e0
      else
        match e0 with
        | some ej => Json.getField ej "url"
        | none => none
    | _ => some (Json.bool false)

/-- The `imageUrl` extraction of `src/unnamed/part_000`:
`falJson.image_url || falJson.url || (output chain)`. -/
def extractImageUrl (falJson : Json) : Option Json :=
  jsOr (jsOr (Json.getField falJson "image_url") (Json.getField falJson "url"))
    (outputChain falJson)

/-- The 500 response of `src/unnamed/part_000` when no image URL is
found. -/
def noImageUrlResp (falJson : Json) : HttpResponse :=
  ⟨500, Json.obj [("error", Json.str "No image URL returned from Fal"),
                  ("details", falJson)]⟩

/-- The `/retouch` handler of `src/unnamed/part_000` after the outbound
call.  Note the parse-failure branch forwards only the raw text
(`details: falText`); the caught parse exception is logged but not sent
to the caller. -/
def retouchPhase2 (upStatus : Nat) (falText : String) : HttpResponse :=
  if upStatus < 200 ∨ 299 < upStatus then
    ⟨500, Json.obj [("error", Json.str "Nano Banana Pro processing failed"),
                    ("details", Json.str falText)]⟩
  else
    match (if falText = "" then Except.ok (Json.obj []) else jsonParse falText) with
    | Except.error _ =>
      ⟨500, Json.obj [("error", Json.str "Invalid JSON from Fal"),
                      ("details", Json.str falText)]⟩
    | Except.ok falJson =>
      match falJson with
      | Json.null =>
        ⟨500, Json.obj [("error", Json.str "Unexpected server error in /retouch"),
                        ("details", Json.str nullAccessMsg)]⟩
      | _ =>
        match extractImageUrl falJson with
        | some u =>
          if u.truthy then ⟨200, Json.obj [("imageUrl", u)]⟩ else noImageUrlResp falJson
        | none => noImageUrlResp falJson

/-- The whole `/retouch` handler of `src/unnamed/part_000`, with the
outbound call abstracted as a function from the upstream request body to
the upstream status and raw response text. -/
def handle (falKey : Option String) (reqBody : Option Json)
    (upstream : FalBody → Nat × String) : HttpResponse :=
  match retouchPhase1 falKey reqBody with
  | Sum.inl r => r
  | Sum.inr fb => retouchPhase2 (upstream fb).1 (upstream fb).2

end Part000

namespace Spec

/-- The resolution-normalization algorithm exactly as the spec words it
(claim C3): uppercase and trim the input; return it unchanged when it
exactly equals one of the three tiers; otherwise map a first character of
`1`/`2`/`4` to the corresponding tier; otherwise return `1K`.  An absent
value is the empty string. -/
def normalizeResolution (value : Option Json) : String :=
  let v := jsTrim (jsToUpper (match value with
    | none => ""
    | some j => Json.jsStr j))
  if v = "1K" ∨ v = "2K" ∨ v = "4K" then v
  else if headIs v '1' then "1K"
  else if headIs v '2' then "2K"
  else if headIs v '4' then "4K"
  else "1K"

/-- The exact-match-only normalization that `src/unnamed/part_000`
actually implements, worded spec-side for the amended claim C3: uppercase
and trim the JS string coercion of the input; return it when it exactly
equals one of the three tiers and `1K` otherwise, with no
first-character inspection. -/
def exactNormalizeResolution (hint : Option Json) : String :=
  let v := jsTrim (jsToUpper (match hint with
    | none => "undefined"
    | some j => Json.jsStr j))
  if v = "1K" ∨ v = "2K" ∨ v = "4K" then v else "1K"

end Spec

/-- One step of a response-shape probe path (spec §9 models the
extraction as an ordered list of such paths). -/
inductive PathStep where
  | fieldStep (name : String)
  | arrStep (i : Nat)
  | jsStep (i : Nat)

/-- Follow a probe path into a JSON value: `fieldStep` is object field
access, `arrStep` is element access on arrays only (the source guards
the corresponding access with `Array.isArray`), `jsStep` is full JS
indexing (arrays, numeric object keys, string characters), as the
source, when unguarded, as in `?.[0]`. -/
def pathGet : Json → List PathStep → Option Json
  | j, [] => some j
  | j, PathStep.fieldStep n :: rest =>
    match Json.getField j n with
    | some v => pathGet v rest
    | none => none
  | j, PathStep.arrStep i :: rest =>
    match j with
    | Json.arr xs =>
      match xs.get? i with
      | some v => pathGet v rest
      | none => none
    | _ => none
  | j, PathStep.jsStep i :: rest =>
    match Json.idx j i with
    | some v => pathGet v rest
    | none => none

/-- Ordered extraction over a list of probe paths: the value of the
first path whose result is truthy, and `none` when no path yields a
truthy value. -/
def specExtract : List (List PathStep) → Json → Option Json
  | [], _ => none
  | p :: rest, j =>
    if truthyOpt (pathGet j p) then pathGet j p else specExtract rest j

namespace Spec

/-- The probe paths of `src/index.js`, in source order:
`images[0].url` (array-guarded), `image_url`, `imageUrl`,
`output[0].url` (optional chaining). -/
def indexJsPaths : List (List PathStep) :=
  [[PathStep.fieldStep "images", PathStep.arrStep 0, PathStep.fieldStep "url"],
   [PathStep.fieldStep "image_url"],
   [PathStep.fieldStep "imageUrl"],
   [PathStep.fieldStep "output", PathStep.jsStep 0, PathStep.fieldStep "url"]]

/-- The probe paths of `src/unnamed/part_000`, in source order:
`image_url`, `url`, `output[0].url` (array-guarded). -/
def part000Paths : List (List PathStep) :=
  [[PathStep.fieldStep "image_url"],
   [PathStep.fieldStep "url"],
   [PathStep.fieldStep "output", PathStep.arrStep 0, PathStep.fieldStep "url"]]

end Spec

/-- Uppercasing a character neither creates nor destroys whitespace. -/
theorem upChar_isWs (c : Char) : isWsChar (upChar c) = isWsChar c := by
  unfold upChar
  split
  · rename_i h
    have hv : (Char.ofNat (c.toNat - 32)).toNat = c.toNat - 32 := by
      have hvalid : (c.toNat - 32).isValidChar := by
        unfold Nat.isValidChar
        left
        omega
      unfold Char.ofNat
      split
      · rfl
      · contradiction
    have h1 : isWsChar (Char.ofNat (c.toNat - 32)) = false := by
      simp only [isWsChar, hv, Bool.or_eq_false_iff, beq_eq_false_iff_ne, ne_eq]
      omega
    have h2 : isWsChar c = false := by
      simp only [isWsChar, Bool.or_eq_false_iff, beq_eq_false_iff_ne, ne_eq]
      omega
    rw [h1, h2]
  · rfl


/-- Mapping the uppercase function commutes with dropping leading
whitespace. -/
theorem dropWhile_map_upChar (l : List Char) :
    (l.dropWhile isWsChar).map upChar = (l.map upChar).dropWhile isWsChar := by
  induction l with
  | nil => rfl
  | cons a l ih =>
    cases h : isWsChar a with
    | true =>
      have h2 : isWsChar (upChar a) = true := by rw [upChar_isWs]; exact h
      simp [List.dropWhile, h, h2, ih]
    | false =>
      have h2 : isWsChar (upChar a) = false := by rw [upChar_isWs]; exact h
      simp [List.dropWhile, h, h2]


/-- Mapping the uppercase function commutes with trimming. -/
theorem jsTrimList_map_upChar (l : List Char) :
    (jsTrimList l).map upChar = jsTrimList (l.map upChar) := by
  unfold jsTrimList
  rw [List.map_reverse, dropWhile_map_upChar, List.map_reverse, dropWhile_map_upChar]


/-- Trim-then-uppercase equals uppercase-then-trim. -/
theorem jsToUpper_jsTrim (s : String) : jsToUpper (jsTrim s) = jsTrim (jsToUpper s) := by
  show String.mk ((jsTrimList s.data).map upChar) = String.mk (jsTrimList (s.data.map upChar))
  rw [jsTrimList_map_upChar]


/-- On truthy inputs the index.js normalizer agrees with the spec
algorithm, by the trim/uppercase commutation. -/
theorem indexJs_norm_truthy (j : Json) (h : j.truthy = true) :
    IndexJs.normalizeResolution (some j) = Spec.normalizeResolution (some j) := by
  unfold IndexJs.normalizeResolution Spec.normalizeResolution
  simp only [truthyOpt, h, Option.getD, jsToUpper_jsTrim]
  simp


/-- On truthy inputs the part_000 normalizer agrees with the spec-side
exact-match normalizer. -/
theorem part000_norm_truthy (j : Json) (h : j.truthy = true) :
    Part000.normalizeResolution (some j) = Spec.exactNormalizeResolution (some j) := by
  unfold Part000.normalizeResolution Spec.exactNormalizeResolution
  simp only [truthyOpt, h, Option.getD]
  simp


/-- The index.js normalizer equals the spec algorithm on every input. -/
theorem indexJs_norm_eq_spec (v : Option Json) :
    IndexJs.normalizeResolution v = Spec.normalizeResolution v := by
  match v with
  | none => decide
  | some Json.null => decide
  | some (Json.bool true) => exact indexJs_norm_truthy (Json.bool true) rfl
  | some (Json.bool false) => decide
  | some (Json.num n) =>
    by_cases hn : n = 0
    · subst hn; decide
    · exact indexJs_norm_truthy (Json.num n) (by simp [Json.truthy, hn])
  | some (Json.str s) =>
    by_cases hs : s = ""
    · subst hs; decide
    · exact indexJs_norm_truthy (Json.str s) (by simp [Json.truthy, hs])
  | some (Json.arr xs) => exact indexJs_norm_truthy (Json.arr xs) rfl
  | some (Json.obj fs) => exact indexJs_norm_truthy (Json.obj fs) rfl


/-- The part_000 normalizer equals the spec-side exact-match normalizer
on every input. -/
theorem part000_norm_eq_spec (v : Option Json) :
    Part000.normalizeResolution v = Spec.exactNormalizeResolution v := by
  match v with
  | none => decide
  | some Json.null => decide
  | some (Json.bool true) => exact part000_norm_truthy (Json.bool true) rfl
  | some (Json.bool false) => decide
  | some (Json.num n) =>
    by_cases hn : n = 0
    · subst hn; decide
    · exact part000_norm_truthy (Json.num n) (by simp [Json.truthy, hn])
  | some (Json.str s) =>
    by_cases hs : s = ""
    · subst hs; decide
    · exact part000_norm_truthy (Json.str s) (by simp [Json.truthy, hs])
  | some (Json.arr xs) => exact part000_norm_truthy (Json.arr xs) rfl
  | some (Json.obj fs) => exact part000_norm_truthy (Json.obj fs) rfl


/-- The index.js normalizer always returns one of the three tiers. -/
theorem indexJs_norm_mem (v : Option Json) :
    IndexJs.normalizeResolution v = "1K" ∨ IndexJs.normalizeResolution v = "2K" ∨
      IndexJs.normalizeResolution v = "4K" := by
  unfold IndexJs.normalizeResolution
  dsimp only
  split
  · exact Or.inl rfl
  · split
    · rename_i h
      exact h
    · split
      · exact Or.inl rfl
      · split
        · exact Or.inr (Or.inl rfl)
        · split
          · exact Or.inr (Or.inr rfl)
          · exact Or.inl rfl


/-- The part_000 normalizer always returns one of the three tiers. -/
theorem part000_norm_mem (v : Option Json) :
    Part000.normalizeResolution v = "1K" ∨ Part000.normalizeResolution v = "2K" ∨
      Part000.normalizeResolution v = "4K" := by
  unfold Part000.normalizeResolution
  dsimp only
  split
  all_goals split
  · rename_i h
    exact h
  · exact Or.inl rfl
  · rename_i h
    exact h
  · exact Or.inl rfl


/-- C3 counterexample.  The claim says every normalizer maps an input
with first character `2` to `2K`, but the part_000 variant has no
first-character fallback: it maps `"2"` to `1K`, while the algorithm the
claim states (modelled as `Spec.normalizeResolution`) yields `2K`. -/
theorem c3_counterexample :
    Part000.normalizeResolution (some (Json.str "2")) = "1K" ∧
    Spec.normalizeResolution (some (Json.str "2")) = "2K" ∧
    ("1K" : String) ≠ "2K" :=
  ⟨rfl, rfl, by decide⟩


/-- C3 amended.  The `normalizeResolution` of `src/index.js` follows the
claimed algorithm exactly (uppercase and trim; exact tier match; else
first-character fallback; else `1K`), while the variant in
`src/unnamed/part_000` returns the uppercased-trimmed input only on an
exact tier match and `1K` otherwise, with no first-character
inspection. -/
theorem c3_amended :
    (∀ v, IndexJs.normalizeResolution v = Spec.normalizeResolution v) ∧
    (∀ v, Part000.normalizeResolution v = Spec.exactNormalizeResolution v) :=
  ⟨indexJs_norm_eq_spec, part000_norm_eq_spec⟩


/-- C8.  Resolution normalization is total and deterministic: it is a
pure Lean function defined for every modelled JS value (any string,
null, undefined, number, boolean, array, object), and in both source
variants its result is always exactly one of the three strings `1K`,
`2K`, `4K`. -/
theorem c8_norm_total : ∀ v : Option Json,
    (IndexJs.normalizeResolution v = "1K" ∨ IndexJs.normalizeResolution v = "2K" ∨
      IndexJs.normalizeResolution v = "4K") ∧
    (Part000.normalizeResolution v = "1K" ∨ Part000.normalizeResolution v = "2K" ∨
      Part000.normalizeResolution v = "4K") :=
  fun v => ⟨indexJs_norm_mem v, part000_norm_mem v⟩


/-- C10.  Resolution normalization is idempotent in both source
variants: feeding the normalized tier back in returns it unchanged,
because each of the three possible outputs normalizes to itself. -/
theorem c10_norm_idempotent : ∀ v : Option Json,
    IndexJs.normalizeResolution (some (Json.str (IndexJs.normalizeResolution v))) =
      IndexJs.normalizeResolution v ∧
    Part000.normalizeResolution (some (Json.str (Part000.normalizeResolution v))) =
      Part000.normalizeResolution v := by
  intro v
  constructor
  · rcases indexJs_norm_mem v with h | h | h <;> rw [h] <;> decide
  · rcases part000_norm_mem v with h | h | h <;> rw [h] <;> decide


/-- C5.  For every request handled while the API key is unconfigured
(unset or empty), both handlers return status 500 with their
configuration-error body, before any outbound call: phase 1 returns the
response directly (`Sum.inl`), and the full handler result is the same
for every possible upstream behavior.  The check sits inside the
per-request handler, so the process keeps serving requests; part_000
additionally logs the missing key at startup without exiting. -/
theorem c5_config_error (falApiKey : Option String) (reqBody : Option Json)
    (hkey : strTruthy falApiKey = false) :
    (IndexJs.retouchPhase1 falApiKey reqBody =
      Sum.inl ⟨500, Json.obj [("error", Json.str "Server is not configured with FAL_API_KEY.")]⟩) ∧
    (∀ upstream startedAt finishedAt,
      IndexJs.handle falApiKey reqBody upstream startedAt finishedAt =
        ⟨500, Json.obj [("error", Json.str "Server is not configured with FAL_API_KEY.")]⟩) ∧
    (Part000.retouchPhase1 falApiKey reqBody =
      Sum.inl ⟨500, Json.obj [("error", Json.str "Server configuration error"),
                              ("details", Json.str "FAL_KEY missing")]⟩) ∧
    (∀ upstream, Part000.handle falApiKey reqBody upstream =
      ⟨500, Json.obj [("error", Json.str "Server configuration error"),
                      ("details", Json.str "FAL_KEY missing")]⟩) := by
  have h1 : IndexJs.retouchPhase1 falApiKey reqBody =
      Sum.inl ⟨500, Json.obj [("error", Json.str "Server is not configured with FAL_API_KEY.")]⟩ := by
    unfold IndexJs.retouchPhase1
    simp [hkey]
  have h2 : Part000.retouchPhase1 falApiKey reqBody =
      Sum.inl ⟨500, Json.obj [("error", Json.str "Server configuration error"),
                              ("details", Json.str "FAL_KEY missing")]⟩ := by
    unfold Part000.retouchPhase1
    simp [hkey]
  refine ⟨h1, ?_, h2, ?_⟩
  · intro upstream startedAt finishedAt
    unfold IndexJs.handle
    rw [h1]
  · intro upstream
    unfold Part000.handle
    rw [h2]


/-- C5 witness: the configuration error at a concrete request. -/
theorem c5_witness :
    IndexJs.retouchPhase1 none (some (Json.obj [("imageBase64", Json.str "img")])) =
      Sum.inl ⟨500, Json.obj [("error", Json.str "Server is not configured with FAL_API_KEY.")]⟩ :=
  (c5_config_error none (some (Json.obj [("imageBase64", Json.str "img")])) (by decide)).1


/-- C4 counterexample.  The claim quotes the error text
`imageBase64 is required`, but neither variant sends exactly that
string: index.js sends it with a trailing period and part_000 sends
`imageBase64 is required in request body`. -/
theorem c4_counterexample :
    IndexJs.retouchPhase1 (some "k") (some (Json.obj [])) =
      Sum.inl ⟨400, Json.obj [("error", Json.str "imageBase64 is required.")]⟩ ∧
    Part000.retouchPhase1 (some "k") (some (Json.obj [])) =
      Sum.inl ⟨400, Json.obj [("error", Json.str "imageBase64 is required in request body")]⟩ ∧
    ("imageBase64 is required." : String) ≠ "imageBase64 is required" ∧
    ("imageBase64 is required in request body" : String) ≠ "imageBase64 is required" :=
  ⟨rfl, rfl, by decide, by decide⟩


/-- C4 amended.  For every request whose body lacks a truthy
`imageBase64` (absent, empty string, or otherwise falsy) while the API
key is configured, both handlers return status 400 with their
missing-image error body (`imageBase64 is required.` in index.js,
`imageBase64 is required in request body` in part_000), before any
outbound call: phase 1 returns the response directly and the full
handler result is independent of the upstream. -/
theorem c4_amended (falApiKey : Option String) (reqBody : Option Json)
    (hkey : strTruthy falApiKey = true)
    (himg : truthyOpt (Json.getField (reqBodyOrEmpty reqBody) "imageBase64") = false) :
    (IndexJs.retouchPhase1 falApiKey reqBody =
      Sum.inl ⟨400, Json.obj [("error", Json.str "imageBase64 is required.")]⟩) ∧
    (∀ upstream startedAt finishedAt,
      IndexJs.handle falApiKey reqBody upstream startedAt finishedAt =
        ⟨400, Json.obj [("error", Json.str "imageBase64 is required.")]⟩) ∧
    (Part000.retouchPhase1 falApiKey reqBody =
      Sum.inl ⟨400, Json.obj [("error", Json.str "imageBase64 is required in request body")]⟩) ∧
    (∀ upstream, Part000.handle falApiKey reqBody upstream =
      ⟨400, Json.obj [("error", Json.str "imageBase64 is required in request body")]⟩) := by
  have h1 : IndexJs.retouchPhase1 falApiKey reqBody =
      Sum.inl ⟨400, Json.obj [("error", Json.str "imageBase64 is required.")]⟩ := by
    unfold IndexJs.retouchPhase1
    simp [hkey, himg]
  have h2 : Part000.retouchPhase1 falApiKey reqBody =
      Sum.inl ⟨400, Json.obj [("error", Json.str "imageBase64 is required in request body")]⟩ := by
    unfold Part000.retouchPhase1
    simp [hkey, himg]
  refine ⟨h1, ?_, h2, ?_⟩
  · intro upstream startedAt finishedAt
    unfold IndexJs.handle
    rw [h1]
  · intro upstream
    unfold Part000.handle
    rw [h2]


/-- C4 witness: the 400 response at a concrete request with no
`imageBase64`. -/
theorem c4_witness :
    IndexJs.retouchPhase1 (some "k") (some (Json.obj [("backgroundId", Json.str "x")])) =
      Sum.inl ⟨400, Json.obj [("error", Json.str "imageBase64 is required.")]⟩ :=
  (c4_amended (some "k") (some (Json.obj [("backgroundId", Json.str "x")]))
    (by decide) (by decide)).1


/-- C9.  The credential check precedes image validation in both
handlers: when the API key is unconfigured and `imageBase64` is also
missing, the response is the 500 configuration error and is never the
400 missing-image response. -/
theorem c9_credential_check_first (falApiKey : Option String) (reqBody : Option Json)
    (hkey : strTruthy falApiKey = false)
    (_himg : truthyOpt (Json.getField (reqBodyOrEmpty reqBody) "imageBase64") = false) :
    (IndexJs.retouchPhase1 falApiKey reqBody =
      Sum.inl ⟨500, Json.obj [("error", Json.str "Server is not configured with FAL_API_KEY.")]⟩) ∧
    (∀ b, IndexJs.retouchPhase1 falApiKey reqBody ≠ Sum.inl ⟨400, b⟩) ∧
    (Part000.retouchPhase1 falApiKey reqBody =
      Sum.inl ⟨500, Json.obj [("error", Json.str "Server configuration error"),
                              ("details", Json.str "FAL_KEY missing")]⟩) ∧
    (∀ b, Part000.retouchPhase1 falApiKey reqBody ≠ Sum.inl ⟨400, b⟩) := by
  have h1 : IndexJs.retouchPhase1 falApiKey reqBody =
      Sum.inl ⟨500, Json.obj [("error", Json.str "Server is not configured with FAL_API_KEY.")]⟩ := by
    unfold IndexJs.retouchPhase1
    simp [hkey]
  have h2 : Part000.retouchPhase1 falApiKey reqBody =
      Sum.inl ⟨500, Json.obj [("error", Json.str "Server configuration error"),
                              ("details", Json.str "FAL_KEY missing")]⟩ := by
    unfold Part000.retouchPhase1
    simp [hkey]
  refine ⟨h1, ?_, h2, ?_⟩
  · intro b hb
    rw [h1] at hb
    simp only [Sum.inl.injEq, HttpResponse.mk.injEq] at hb
    exact absurd hb.1 (by decide)
  · intro b hb
    rw [h2] at hb
    simp only [Sum.inl.injEq, HttpResponse.mk.injEq] at hb
    exact absurd hb.1 (by decide)


/-- C9 witness: concrete request with neither key nor image. -/
theorem c9_witness :
    IndexJs.retouchPhase1 none (some (Json.obj [])) =
      Sum.inl ⟨500, Json.obj [("error", Json.str "Server is not configured with FAL_API_KEY.")]⟩ :=
  (c9_credential_check_first none (some (Json.obj [])) (by decide) (by decide)).1


/-- A validated request (configured key, truthy image) drives the
index.js phase 1 to the upstream payload built from the body fields. -/
theorem indexJs_phase1_valid (falApiKey : Option String) (reqBody : Option Json)
    (hkey : strTruthy falApiKey = true)
    (himg : truthyOpt (Json.getField (reqBodyOrEmpty reqBody) "imageBase64") = true) :
    IndexJs.retouchPhase1 falApiKey reqBody = Sum.inr
      { prompt := IndexJs.resolveFinalPrompt
          (Json.getField (reqBodyOrEmpty reqBody) "promptOverride")
          (Json.getField (reqBodyOrEmpty reqBody) "prompt"),
        numImages := 1, aspectRatio := "auto", outputFormat := "png",
        imageUrls := [(Json.getField (reqBodyOrEmpty reqBody) "imageBase64").getD Json.null],
        resolution := IndexJs.normalizeResolution
          (Json.getField (reqBodyOrEmpty reqBody) "resolutionHint") } := by
  unfold IndexJs.retouchPhase1
  simp [hkey, himg]


/-- A validated request drives the part_000 phase 1 to the upstream body
built from the request fields. -/
theorem part000_phase1_valid (falApiKey : Option String) (reqBody : Option Json)
    (hkey : strTruthy falApiKey = true)
    (himg : truthyOpt (Json.getField (reqBodyOrEmpty reqBody) "imageBase64") = true) :
    Part000.retouchPhase1 falApiKey reqBody = Sum.inr
      { input := { imageUrl := (Json.getField (reqBodyOrEmpty reqBody) "imageBase64").getD Json.null,
                   prompt := Part000.resolvePrompt
                     (Json.getField (reqBodyOrEmpty reqBody) "backgroundId") },
        resolution := Part000.normalizeResolution
          (Json.getField (reqBodyOrEmpty reqBody) "resolutionHint") } := by
  unfold Part000.retouchPhase1
  simp [hkey, himg]


/-- C1 counterexample.  The claim says a non-empty trimmed override
always wins over the prompt table.  In `src/unnamed/part_000` the
request carries `promptOverride` set to the non-empty string
`Custom prompt` and `backgroundId` set to the table key `holiday`, yet
the prompt sent upstream is the holiday table entry, not the
override — part_000 never reads an override field. -/
theorem c1_counterexample :
    Part000.retouchPhase1 (some "k")
      (some (Json.obj [("imageBase64", Json.str "img"),
                       ("promptOverride", Json.str "Custom prompt"),
                       ("backgroundId", Json.str "holiday")])) =
      Sum.inr { input := { imageUrl := Json.str "img", prompt := Part000.holidayPrompt },
                resolution := "1K" } ∧
    lookupEntries Part000.promptMap "holiday" = some Part000.holidayPrompt ∧
    jsTrim "Custom prompt" = "Custom prompt" ∧
    Part000.holidayPrompt ≠ "Custom prompt" :=
  ⟨rfl, rfl, by decide, by decide⟩


/-- C1 amended.  The two variants resolve the prompt differently.  In
`src/index.js` the upstream prompt is a trimmed non-empty
`promptOverride` if present, else a trimmed non-empty `prompt` field,
else the hard-coded default; `backgroundId` is never consulted and
there is no prompt table.  In `src/unnamed/part_000` the upstream
prompt is the prompt-table entry for `backgroundId` when the key is
present and the `studioSoft` entry otherwise; caller-supplied override
fields are ignored. -/
theorem c1_amended (falApiKey : Option String) (reqBody : Option Json)
    (hkey : strTruthy falApiKey = true)
    (himg : truthyOpt (Json.getField (reqBodyOrEmpty reqBody) "imageBase64") = true) :
    (IndexJs.retouchPhase1 falApiKey reqBody = Sum.inr
      { prompt := IndexJs.resolveFinalPrompt
          (Json.getField (reqBodyOrEmpty reqBody) "promptOverride")
          (Json.getField (reqBodyOrEmpty reqBody) "prompt"),
        numImages := 1, aspectRatio := "auto", outputFormat := "png",
        imageUrls := [(Json.getField (reqBodyOrEmpty reqBody) "imageBase64").getD Json.null],
        resolution := IndexJs.normalizeResolution
          (Json.getField (reqBodyOrEmpty reqBody) "resolutionHint") }) ∧
    (Part000.retouchPhase1 falApiKey reqBody = Sum.inr
      { input := { imageUrl := (Json.getField (reqBodyOrEmpty reqBody) "imageBase64").getD Json.null,
                   prompt := Part000.resolvePrompt
                     (Json.getField (reqBodyOrEmpty reqBody) "backgroundId") },
        resolution := Part000.normalizeResolution
          (Json.getField (reqBodyOrEmpty reqBody) "resolutionHint") }) ∧
    (∀ s pf, 0 < (jsTrim s).length →
      IndexJs.resolveFinalPrompt (some (Json.str s)) pf = jsTrim s) ∧
    (∀ s, 0 < (jsTrim s).length →
      IndexJs.resolveFinalPrompt none (some (Json.str s)) = jsTrim s) ∧
    (IndexJs.resolveFinalPrompt none none = IndexJs.DEFAULT_PROMPT) ∧
    (∀ k e, lookupEntries Part000.promptMap k = some e → e ≠ "" →
      Part000.resolvePrompt (some (Json.str k)) = e) ∧
    (∀ k, lookupEntries Part000.promptMap k = none →
      Part000.resolvePrompt (some (Json.str k)) = Part000.studioSoftPrompt) := by
  refine ⟨indexJs_phase1_valid falApiKey reqBody hkey himg,
    part000_phase1_valid falApiKey reqBody hkey himg, ?_, ?_, rfl, ?_, ?_⟩
  · intro s pf h
    unfold IndexJs.resolveFinalPrompt IndexJs.promptFromField
    simp [h]
  · intro s h
    unfold IndexJs.resolveFinalPrompt IndexJs.promptFromField
    simp [h]
  · intro k e hk he
    unfold Part000.resolvePrompt
    simp [Json.jsStr, hk, he]
  · intro k hk
    unfold Part000.resolvePrompt
    simp [Json.jsStr, hk]


/-- C1 witness: the index.js phase 1 at a concrete validated request. -/
theorem c1_witness :
    IndexJs.retouchPhase1 (some "k")
      (some (Json.obj [("imageBase64", Json.str "img"), ("prompt", Json.str "hello")])) = Sum.inr
      { prompt := IndexJs.resolveFinalPrompt
          (Json.getField (reqBodyOrEmpty (some (Json.obj [("imageBase64", Json.str "img"),
            ("prompt", Json.str "hello")]))) "promptOverride")
          (Json.getField (reqBodyOrEmpty (some (Json.obj [("imageBase64", Json.str "img"),
            ("prompt", Json.str "hello")]))) "prompt"),
        numImages := 1, aspectRatio := "auto", outputFormat := "png",
        imageUrls := [(Json.getField (reqBodyOrEmpty (some (Json.obj [("imageBase64", Json.str "img"),
          ("prompt", Json.str "hello")]))) "imageBase64").getD Json.null],
        resolution := IndexJs.normalizeResolution
          (Json.getField (reqBodyOrEmpty (some (Json.obj [("imageBase64", Json.str "img"),
            ("prompt", Json.str "hello")]))) "resolutionHint") } :=
  (c1_amended (some "k")
    (some (Json.obj [("imageBase64", Json.str "img"), ("prompt", Json.str "hello")]))
    (by decide) (by decide)).1



/-- C7 counterexample.  The claim says every validated request sends
`num_images`, `aspect_ratio` and `output_format` upstream, but the
upstream body built by `src/unnamed/part_000` for a validated request
has none of those keys. -/
theorem c7_counterexample :
    Part000.retouchPhase1 (some "k") (some (Json.obj [("imageBase64", Json.str "img")])) =
      Sum.inr { input := { imageUrl := Json.str "img", prompt := Part000.studioSoftPrompt },
                resolution := "1K" } ∧
    Json.getField (Part000.FalBody.toJson
      { input := { imageUrl := Json.str "img", prompt := Part000.studioSoftPrompt },
        resolution := "1K" }) "num_images" = none ∧
    Json.getField (Part000.FalBody.toJson
      { input := { imageUrl := Json.str "img", prompt := Part000.studioSoftPrompt },
        resolution := "1K" }) "aspect_ratio" = none ∧
    Json.getField (Part000.FalBody.toJson
      { input := { imageUrl := Json.str "img", prompt := Part000.studioSoftPrompt },
        resolution := "1K" }) "output_format" = none :=
  ⟨rfl, rfl, rfl, rfl⟩


/-- C7 amended.  For every validated request, the upstream body of
`src/index.js` carries the fixed defaults `num_images` 1, `aspect_ratio`
`auto` and `output_format` `png` alongside the resolved prompt, the
normalized resolution and the client image payload; the upstream body
of `src/unnamed/part_000` carries none of the three default keys (it is
`input.image_url`, `input.prompt` and `resolution` only). -/
theorem c7_amended (falApiKey : Option String) (reqBody : Option Json)
    (hkey : strTruthy falApiKey = true)
    (himg : truthyOpt (Json.getField (reqBodyOrEmpty reqBody) "imageBase64") = true) :
    (∀ pl, IndexJs.retouchPhase1 falApiKey reqBody = Sum.inr pl →
      Json.getField (IndexJs.Payload.toJson pl) "num_images" = some (Json.num 1) ∧
      Json.getField (IndexJs.Payload.toJson pl) "aspect_ratio" = some (Json.str "auto") ∧
      Json.getField (IndexJs.Payload.toJson pl) "output_format" = some (Json.str "png") ∧
      Json.getField (IndexJs.Payload.toJson pl) "prompt" =
        some (Json.str (IndexJs.resolveFinalPrompt
          (Json.getField (reqBodyOrEmpty reqBody) "promptOverride")
          (Json.getField (reqBodyOrEmpty reqBody) "prompt"))) ∧
      Json.getField (IndexJs.Payload.toJson pl) "resolution" =
        some (Json.str (IndexJs.normalizeResolution
          (Json.getField (reqBodyOrEmpty reqBody) "resolutionHint"))) ∧
      Json.getField (IndexJs.Payload.toJson pl) "image_urls" =
        some (Json.arr [(Json.getField (reqBodyOrEmpty reqBody) "imageBase64").getD Json.null])) ∧
    (∃ pl, IndexJs.retouchPhase1 falApiKey reqBody = Sum.inr pl) ∧
    (∀ fb, Part000.retouchPhase1 falApiKey reqBody = Sum.inr fb →
      Json.getField (Part000.FalBody.toJson fb) "num_images" = none ∧
      Json.getField (Part000.FalBody.toJson fb) "aspect_ratio" = none ∧
      Json.getField (Part000.FalBody.toJson fb) "output_format" = none) ∧
    (∃ fb, Part000.retouchPhase1 falApiKey reqBody = Sum.inr fb) := by
  have h1 := indexJs_phase1_valid falApiKey reqBody hkey himg
  have h2 := part000_phase1_valid falApiKey reqBody hkey himg
  refine ⟨?_, ⟨_, h1⟩, ?_, ⟨_, h2⟩⟩
  · intro pl hpl
    have he := h1.symm.trans hpl
    injection he with he
    subst he
    exact ⟨rfl, rfl, rfl, rfl, rfl, rfl⟩
  · intro fb hfb
    have he := h2.symm.trans hfb
    injection he with he
    subst he
    exact ⟨rfl, rfl, rfl⟩


/-- C7 witness: the defaults in the concrete index.js payload of a
validated request. -/
theorem c7_witness :
    Json.getField (IndexJs.Payload.toJson
      { prompt := IndexJs.DEFAULT_PROMPT, numImages := 1, aspectRatio := "auto",
        outputFormat := "png", imageUrls := [Json.str "img"], resolution := "4K" })
      "num_images" = some (Json.num 1) ∧
    Json.getField (IndexJs.Payload.toJson
      { prompt := IndexJs.DEFAULT_PROMPT, numImages := 1, aspectRatio := "auto",
        outputFormat := "png", imageUrls := [Json.str "img"], resolution := "4K" })
      "aspect_ratio" = some (Json.str "auto") ∧
    Json.getField (IndexJs.Payload.toJson
      { prompt := IndexJs.DEFAULT_PROMPT, numImages := 1, aspectRatio := "auto",
        outputFormat := "png", imageUrls := [Json.str "img"], resolution := "4K" })
      "output_format" = some (Json.str "png") ∧
    Json.getField (IndexJs.Payload.toJson
      { prompt := IndexJs.DEFAULT_PROMPT, numImages := 1, aspectRatio := "auto",
        outputFormat := "png", imageUrls := [Json.str "img"], resolution := "4K" })
      "prompt" = some (Json.str IndexJs.DEFAULT_PROMPT) ∧
    Json.getField (IndexJs.Payload.toJson
      { prompt := IndexJs.DEFAULT_PROMPT, numImages := 1, aspectRatio := "auto",
        outputFormat := "png", imageUrls := [Json.str "img"], resolution := "4K" })
      "resolution" = some (Json.str "4K") ∧
    Json.getField (IndexJs.Payload.toJson
      { prompt := IndexJs.DEFAULT_PROMPT, numImages := 1, aspectRatio := "auto",
        outputFormat := "png", imageUrls := [Json.str "img"], resolution := "4K" })
      "image_urls" = some (Json.arr [Json.str "img"]) :=
  (c7_amended (some "k")
    (some (Json.obj [("imageBase64", Json.str "img"), ("resolutionHint", Json.str "4k")]))
    (by decide) (by decide)).1
    { prompt := IndexJs.DEFAULT_PROMPT, numImages := 1, aspectRatio := "auto",
      outputFormat := "png", imageUrls := [Json.str "img"], resolution := "4K" } rfl

/-- C6 counterexample.  On a success-status upstream response whose body
is `not json`, the part_000 handler returns 500 carrying only the fixed
error string and the raw body text — the response shown is the entire
body, and no field carries the JSON parse error, contrary to the
claim. -/
theorem c6_counterexample :
    jsonParse "not json" = Except.error jsonErrToken ∧
    Part000.retouchPhase2 200 "not json" =
      ⟨500, Json.obj [("error", Json.str "Invalid JSON from Fal"),
                      ("details", Json.str "not json")]⟩ ∧
    Part000.handle (some "k") (some (Json.obj [("imageBase64", Json.str "img")]))
      (fun _ => (200, "not json")) =
      ⟨500, Json.obj [("error", Json.str "Invalid JSON from Fal"),
                      ("details", Json.str "not json")]⟩ :=
  ⟨rfl, rfl, rfl⟩


/-- C6 amended.  For a success-status upstream response whose non-empty
body fails to parse as JSON, `src/index.js` returns 500 carrying both
the parse error (`details`) and the raw text (`raw`), while
`src/unnamed/part_000` returns 500 carrying only the raw text.  An
empty upstream body is not parsed at all: both variants treat it as an
empty object and return their missing-image-URL error instead. -/
theorem c6_amended (upStatus : Nat) (rawText : String) (pl : IndexJs.Payload)
    (backgroundId : Option Json) (startedAt finishedAt : String) (e : String)
    (hlo : 200 ≤ upStatus) (hhi : upStatus ≤ 299)
    (hraw : rawText ≠ "") (hparse : jsonParse rawText = Except.error e) :
    (IndexJs.retouchPhase2 upStatus rawText pl backgroundId startedAt finishedAt =
      ⟨500, Json.obj [("error", Json.str "Invalid JSON from Nano Banana Pro Edit"),
                      ("details", Json.str e), ("raw", Json.str rawText)]⟩) ∧
    (Part000.retouchPhase2 upStatus rawText =
      ⟨500, Json.obj [("error", Json.str "Invalid JSON from Fal"),
                      ("details", Json.str rawText)]⟩) ∧
    (IndexJs.retouchPhase2 upStatus "" pl backgroundId startedAt finishedAt =
      IndexJs.noImageUrlResp (Json.obj [])) ∧
    (Part000.retouchPhase2 upStatus "" = Part000.noImageUrlResp (Json.obj [])) := by
  have hok : ¬ (upStatus < 200 ∨ 299 < upStatus) := by omega
  refine ⟨?_, ?_, ?_, ?_⟩
  · unfold IndexJs.retouchPhase2
    rw [if_neg hok, if_neg hraw, hparse]
  · unfold Part000.retouchPhase2
    rw [if_neg hok, if_neg hraw, hparse]
  · unfold IndexJs.retouchPhase2
    rw [if_neg hok]
    exact rfl
  · unfold Part000.retouchPhase2
    rw [if_neg hok]
    exact rfl


/-- C6 witness: the index.js parse-failure response at the concrete
body `not json`. -/
theorem c6_witness :
    IndexJs.retouchPhase2 200 "not json"
      { prompt := IndexJs.DEFAULT_PROMPT, numImages := 1, aspectRatio := "auto",
        outputFormat := "png", imageUrls := [Json.str "img"], resolution := "1K" }
      none "s" "f" =
      ⟨500, Json.obj [("error", Json.str "Invalid JSON from Nano Banana Pro Edit"),
                      ("details", Json.str jsonErrToken), ("raw", Json.str "not json")]⟩ :=
  (c6_amended 200 "not json"
    { prompt := IndexJs.DEFAULT_PROMPT, numImages := 1, aspectRatio := "auto",
      outputFormat := "png", imageUrls := [Json.str "img"], resolution := "1K" }
    none "s" "f" jsonErrToken (by omega) (by omega) (by decide) rfl).1


/-- A one-step probe path reaching a field is exactly field access. -/
theorem pathGet_single (j : Json) (n : String) :
    pathGet j [PathStep.fieldStep n] = Json.getField j n := by
  unfold pathGet
  cases h : Json.getField j n with
  | none => rfl
  | some v => rfl


/-- Collapsing falsy values preserves truthiness. -/
theorem truthyOpt_normTruthy (a : Option Json) : truthyOpt (normTruthy a) = truthyOpt a := by
  unfold normTruthy
  by_cases t : truthyOpt a = true
  · rw [if_pos t]
  · rw [if_neg t]
    rw [Bool.not_eq_true] at t
    rw [t]
    rfl


/-- JS disjunction is associative. -/
theorem jsOr_assoc (x y z : Option Json) : jsOr (jsOr x y) z = jsOr x (jsOr y z) := by
  unfold jsOr
  by_cases tx : truthyOpt x = true
  · simp [tx]
  · simp [tx]


/-- A trailing undefined operand is absorbed up to falsy collapse. -/
theorem normTruthy_jsOr_none (x : Option Json) : normTruthy (jsOr x none) = normTruthy x := by
  unfold jsOr
  by_cases t : truthyOpt x = true
  · rw [if_pos t]
  · rw [if_neg t]
    unfold normTruthy
    rw [if_neg t]
    rfl


/-- Disjunction respects equality up to falsy collapse. -/
theorem normTruthy_jsOr_congr {a b a' b' : Option Json}
    (ha : normTruthy a = normTruthy a') (hb : normTruthy b = normTruthy b') :
    normTruthy (jsOr a b) = normTruthy (jsOr a' b') := by
  have ta : truthyOpt a = truthyOpt a' := by
    rw [← truthyOpt_normTruthy a, ha, truthyOpt_normTruthy]
  unfold jsOr
  by_cases t : truthyOpt a = true
  · rw [if_pos t, if_pos (by rw [← ta]; exact t)]
    exact ha
  · rw [if_neg t, if_neg (by rw [← ta]; exact t)]
    exact hb


/-- The guarded first operand of the index.js chain agrees, up to falsy
collapse, with the array-guarded probe path `images[0].url`. -/
theorem imagesFirst_norm (j : Json) :
    normTruthy (IndexJs.imagesFirst j) =
      normTruthy (pathGet j
        [PathStep.fieldStep "images", PathStep.arrStep 0, PathStep.fieldStep "url"]) := by
  cases hg : Json.getField j "images" with
  | none => simp [IndexJs.imagesFirst, pathGet, hg, normTruthy, truthyOpt, Json.truthy]
  | some v =>
    cases v with
    | arr elems =>
      cases elems with
      | nil => simp [IndexJs.imagesFirst, pathGet, hg, normTruthy, truthyOpt]
      | cons e rest =>
        simp only [IndexJs.imagesFirst, pathGet, hg, List.get?]
        cases hgu : Json.getField e "url" with
        | none => cases e <;> simp_all [Json.getField, normTruthy, truthyOpt]
        | some v => cases e <;> simp_all [Json.getField, normTruthy, truthyOpt]
    | null => simp [IndexJs.imagesFirst, pathGet, hg, normTruthy, truthyOpt, Json.truthy]
    | bool b => simp [IndexJs.imagesFirst, pathGet, hg, normTruthy, truthyOpt, Json.truthy]
    | num n => simp [IndexJs.imagesFirst, pathGet, hg, normTruthy, truthyOpt, Json.truthy]
    | str s => simp [IndexJs.imagesFirst, pathGet, hg, normTruthy, truthyOpt, Json.truthy]
    | obj fs => simp [IndexJs.imagesFirst, pathGet, hg, normTruthy, truthyOpt, Json.truthy]


/-- The optional chain on `output` equals the probe path with JS
indexing. -/
theorem optIdx0Url_eq (j : Json) :
    IndexJs.optIdx0Url j "output" =
      pathGet j [PathStep.fieldStep "output", PathStep.jsStep 0, PathStep.fieldStep "url"] := by
  cases hg : Json.getField j "output" with
  | none => simp [IndexJs.optIdx0Url, pathGet, hg]
  | some o =>
    cases o with
    | null => simp [IndexJs.optIdx0Url, pathGet, hg, Json.idx]
    | bool b => simp [IndexJs.optIdx0Url, pathGet, hg, Json.idx]
    | num n => simp [IndexJs.optIdx0Url, pathGet, hg, Json.idx]
    | str s =>
      simp only [IndexJs.optIdx0Url, pathGet, hg]
      cases hi : Json.idx (Json.str s) 0 with
      | none => simp [hi]
      | some e =>
        simp only [hi]
        cases hgu : Json.getField e "url" with
        | none => cases e <;> simp_all [Json.getField]
        | some v => cases e <;> simp_all [Json.getField]
    | arr xs =>
      simp only [IndexJs.optIdx0Url, pathGet, hg]
      cases hi : Json.idx (Json.arr xs) 0 with
      | none => simp [hi]
      | some e =>
        simp only [hi]
        cases hgu : Json.getField e "url" with
        | none => cases e <;> simp_all [Json.getField]
        | some v => cases e <;> simp_all [Json.getField]
    | obj fs =>
      simp only [IndexJs.optIdx0Url, pathGet, hg]
      cases hi : Json.idx (Json.obj fs) 0 with
      | none => simp [hi]
      | some e =>
        simp only [hi]
        cases hgu : Json.getField e "url" with
        | none => cases e <;> simp_all [Json.getField]
        | some v => cases e <;> simp_all [Json.getField]


/-- The part_000 output conjunction chain agrees, up to falsy collapse,
with the array-guarded probe path `output[0].url`. -/
theorem outputChain_norm (j : Json) :
    normTruthy (Part000.outputChain j) =
      normTruthy (pathGet j
        [PathStep.fieldStep "output", PathStep.arrStep 0, PathStep.fieldStep "url"]) := by
  cases hg : Json.getField j "output" with
  | none => simp [Part000.outputChain, pathGet, hg, normTruthy, truthyOpt]
  | some o =>
    cases o with
    | null => simp [Part000.outputChain, pathGet, hg, normTruthy, truthyOpt, Json.truthy]
    | bool b =>
      cases b <;> simp [Part000.outputChain, pathGet, hg, normTruthy, truthyOpt, Json.truthy]
    | num n =>
      by_cases hn : n = 0 <;>
        simp [Part000.outputChain, pathGet, hg, normTruthy, truthyOpt, Json.truthy, hn]
    | str s =>
      by_cases hs : s = "" <;>
        simp [Part000.outputChain, pathGet, hg, normTruthy, truthyOpt, Json.truthy, hs]
    | obj fs => simp [Part000.outputChain, pathGet, hg, normTruthy, truthyOpt, Json.truthy]
    | arr xs =>
      cases xs with
      | nil =>
        simp [Part000.outputChain, pathGet, hg, normTruthy, truthyOpt, Json.truthy,
          Json.idx, List.get?]
      | cons e rest =>
        simp only [Part000.outputChain, pathGet, hg, Json.idx, List.get?]
        by_cases te : e.truthy = true
        · simp only [truthyOpt, Json.truthy, te]
          cases hgu : Json.getField e "url" with
          | none => cases e <;> simp_all [Json.getField, normTruthy, truthyOpt, Json.truthy]
          | some v => cases e <;> simp_all [Json.getField, normTruthy, truthyOpt, Json.truthy]
        · cases e <;> simp_all [Json.getField, normTruthy, truthyOpt, Json.truthy]


/-- The index.js extraction equals ordered first-truthy probing of its
four paths, up to falsy collapse. -/
theorem indexJs_extract_norm (j : Json) :
    normTruthy (IndexJs.extractImageUrl j) = normTruthy (specExtract Spec.indexJsPaths j) := by
  have hlhs : IndexJs.extractImageUrl j =
      jsOr (IndexJs.imagesFirst j) (jsOr (Json.getField j "image_url")
        (jsOr (Json.getField j "imageUrl") (IndexJs.optIdx0Url j "output"))) := by
    unfold IndexJs.extractImageUrl
    rw [jsOr_assoc, jsOr_assoc]
  have hspec : specExtract Spec.indexJsPaths j =
      jsOr (pathGet j [PathStep.fieldStep "images", PathStep.arrStep 0, PathStep.fieldStep "url"])
        (jsOr (pathGet j [PathStep.fieldStep "image_url"])
          (jsOr (pathGet j [PathStep.fieldStep "imageUrl"])
            (jsOr (pathGet j [PathStep.fieldStep "output", PathStep.jsStep 0,
              PathStep.fieldStep "url"]) none))) := rfl
  rw [hlhs, hspec]
  refine normTruthy_jsOr_congr (imagesFirst_norm j) ?_
  refine normTruthy_jsOr_congr (by rw [pathGet_single]) ?_
  refine normTruthy_jsOr_congr (by rw [pathGet_single]) ?_
  rw [normTruthy_jsOr_none, optIdx0Url_eq]


/-- The part_000 extraction equals ordered first-truthy probing of its
three paths, up to falsy collapse. -/
theorem part000_extract_norm (j : Json) :
    normTruthy (Part000.extractImageUrl j) = normTruthy (specExtract Spec.part000Paths j) := by
  have hlhs : Part000.extractImageUrl j =
      jsOr (Json.getField j "image_url")
        (jsOr (Json.getField j "url") (Part000.outputChain j)) := by
    unfold Part000.extractImageUrl
    rw [jsOr_assoc]
  have hspec : specExtract Spec.part000Paths j =
      jsOr (pathGet j [PathStep.fieldStep "image_url"])
        (jsOr (pathGet j [PathStep.fieldStep "url"])
          (jsOr (pathGet j [PathStep.fieldStep "output", PathStep.arrStep 0,
            PathStep.fieldStep "url"]) none)) := rfl
  rw [hlhs, hspec]
  refine normTruthy_jsOr_congr (by rw [pathGet_single]) ?_
  refine normTruthy_jsOr_congr (by rw [pathGet_single]) ?_
  rw [normTruthy_jsOr_none]
  exact outputChain_norm j


/-- C2 counterexample.  The claim orders the keys as `image_url`, `url`,
`images[0].url`, `output[0].url`.  In `src/index.js` the guarded
`images[0].url` is probed first: with both `image_url` (value `A`) and
`images[0].url` (value `B`) present, the extracted value is `B`, not
`A`.  The claimed concrete example also fails on
`src/unnamed/part_000`, which never probes `images[0].url`: on the
upstream success body holding only `images[0].url` it returns status
500 instead of 200. -/
theorem c2_counterexample :
    IndexJs.extractImageUrl (Json.obj [("image_url", Json.str "A"),
      ("images", Json.arr [Json.obj [("url", Json.str "B")]])]) = some (Json.str "B") ∧
    ("B" : String) ≠ "A" ∧
    (Part000.handle (some "k") (some (Json.obj [("imageBase64", Json.str "img")]))
      (fun _ => (200, "\x7b\"images\":[\x7b\"url\":\"https://x/y.png\"\x7d]\x7d"))).status
      = 500 :=
  ⟨rfl, by decide, rfl⟩


/-- C2 amended.  Each variant probes its own ordered key list, taking
the first truthy match: `src/index.js` probes `images[0].url` (only
when `images` is an array), then `image_url`, then `imageUrl`, then
`output[0].url` (by optional chaining); `src/unnamed/part_000` probes
`image_url`, then `url`, then `output[0].url` (only when `output` is an
array).  For the upstream success body whose only URL sits at
`images[0].url`, the index.js handler returns 200 with that URL (and
the echo fields), while the part_000 handler returns its 500
missing-image-URL response. -/
theorem c2_amended :
    (∀ j, normTruthy (IndexJs.extractImageUrl j) = normTruthy (specExtract Spec.indexJsPaths j)) ∧
    (∀ j, normTruthy (Part000.extractImageUrl j) = normTruthy (specExtract Spec.part000Paths j)) ∧
    (IndexJs.handle (some "k") (some (Json.obj [("imageBase64", Json.str "img")]))
      (fun _ => (200, "\x7b\"images\":[\x7b\"url\":\"https://x/y.png\"\x7d]\x7d")) "s" "f" =
      ⟨200, Json.obj [("ok", Json.bool true), ("imageUrl", Json.str "https://x/y.png"),
                      ("usedPrompt", Json.str IndexJs.DEFAULT_PROMPT),
                      ("resolution", Json.str "1K"),
                      ("startedAt", Json.str "s"), ("finishedAt", Json.str "f")]⟩) ∧
    (Part000.handle (some "k") (some (Json.obj [("imageBase64", Json.str "img")]))
      (fun _ => (200, "\x7b\"images\":[\x7b\"url\":\"https://x/y.png\"\x7d]\x7d")) =
      Part000.noImageUrlResp
        (Json.obj [("images", Json.arr [Json.obj [("url", Json.str "https://x/y.png")]])])) :=
  ⟨indexJs_extract_norm, part000_extract_norm, rfl, rfl⟩
